import Mathlib

/-!
Shallow embedding of the DE_Challenge ETL core
(`dags/etl/transformation.py`, `dags/etl/data_validations/data_validator.py`,
`dags/etl/data_quality_checks/data_quality.py`) and proofs about the claims
of the specification.

Python values appearing in documents and DataFrame cells are modelled by the
inductive type `Value`; a pandas `DataFrame` is a list of column names plus a
row-major cell matrix; Python exceptions are modelled by the `Except PyErr`
monad, with `sys.exit(n)` modelled as the error `PyErr.systemExit n`.
-/

/-- A Python value as it occurs in the ETL's documents and DataFrame cells:
strings, numbers (modelled as integers), booleans, pandas `NaN`, Python
`None`, lists and (insertion-ordered) dicts. -/
inductive Value where
  | str (s : String)
  | num (n : Int)
  | bool (b : Bool)
  | vnan
  | vnone
  | list (xs : List Value)
  | dict (xs : List (String × Value))
deriving Repr

/-- A document is a Python dict: an insertion-ordered association list. -/
abbrev Document := List (String × Value)

mutual

/-- Structural equality of values, as used by pandas `duplicated` (note that
pandas treats two `NaN` cells as duplicates of one another). -/
def Value.beq : Value → Value → Bool
  | .str a, .str b => a == b
  | .num a, .num b => a == b
  | .bool a, .bool b => a == b
  | .vnan, .vnan => true
  | .vnone, .vnone => true
  | .list xs, .list ys => Value.beqList xs ys
  | .dict xs, .dict ys => Value.beqPairs xs ys
  | _, _ => false

/-- Elementwise equality of value lists. -/
def Value.beqList : List Value → List Value → Bool
  | [], [] => true
  | x :: xs, y :: ys => Value.beq x y && Value.beqList xs ys
  | _, _ => false

/-- Elementwise equality of key-value pair lists. -/
def Value.beqPairs : List (String × Value) → List (String × Value) → Bool
  | [], [] => true
  | (k, x) :: xs, (l, y) :: ys => k == l && Value.beq x y && Value.beqPairs xs ys
  | _, _ => false

end

instance : BEq Value := ⟨Value.beq⟩

/-- Python `isinstance(v, dict)`. -/
def Value.isDict : Value → Bool
  | .dict _ => true
  | _ => false

/-- Python `isinstance(v, list)`. -/
def Value.isList : Value → Bool
  | .list _ => true
  | _ => false

/-- A scalar cell value: not a list and not a dict. -/
def Value.isScalar : Value → Bool
  | .list _ => false
  | .dict _ => false
  | _ => true

/-- Pandas `isnull`: true exactly for `NaN` and `None`. -/
def Value.isNull : Value → Bool
  | .vnan => true
  | .vnone => true
  | _ => false

/-- Python truthiness (`if v:`). Note that `NaN` is a float and floats are
falsy only at `0.0`, so `NaN` is TRUTHY; `None` is falsy; containers are
truthy when non-empty. -/
def Value.truthy : Value → Bool
  | .str s => s ≠ ""
  | .num n => n ≠ 0
  | .bool b => b
  | .vnan => true
  | .vnone => false
  | .list xs => !xs.isEmpty
  | .dict d => !d.isEmpty

/-- Elementwise comparison `cell == ""` as pandas evaluates it: true only for
the empty string (numbers, nulls and containers compare unequal). -/
def Value.isEmptyStr : Value → Bool
  | .str "" => true
  | _ => false

/-- Length of Python `str(v)` for the scalar shapes that reach the ID checks
(composite reprs are abbreviated; ID columns hold scalars). -/
def pyStrLen : Value → Nat
  | .str s => s.length
  | .num n => (toString n).length
  | .bool true => 4
  | .bool false => 5
  | .vnan => 3
  | .vnone => 4
  | .list _ => 2
  | .dict _ => 2

/-- Does a value list contain a duplicate, as pandas `duplicated().any()`
reports it. -/
def hasDup : List Value → Bool
  | [] => false
  | v :: vs => vs.contains v || hasDup vs

/-- Append a key to an ordered set of keys if it is not yet present. -/
def addKey (acc : List String) (k : String) : List String :=
  if k ∈ acc then acc else acc ++ [k]

/-- Accumulate the keys of one dict, in order, skipping keys already seen. -/
def foldKeys (acc : List String) (d : List (String × Value)) : List String :=
  d.foldl (fun acc kv => addKey acc kv.1) acc

/-- One step of the key-union fold: a dict contributes its keys, anything
else contributes nothing. -/
def unionStep (acc : List String) (v : Value) : List String :=
  match v with
  | .dict d => foldKeys acc d
  | _ => acc

/-- Python `set().union(*(d.keys() for d in value))`: the union of the key
sets of a list of dicts (kept in first-appearance order; the code only uses
it when the union is a singleton, where order is irrelevant). -/
def unionKeys (xs : List Value) : List String :=
  xs.foldl unionStep []

/-- Python exceptions raised by the embedded code, plus `sys.exit`. -/
inductive PyErr where
  | keyError (msg : String)
  | colsNotFound (cols : List String)
  | valueError (msg : String)
  | primaryKeyViolation (msg : String)
  | typeError (msg : String)
  | attributeError (msg : String)
  | systemExit (code : Nat)
deriving Repr, DecidableEq

/-- Python `x[k]` on a value expected to be a dict. -/
def dictGetKey (v : Value) (k : String) : Except PyErr Value :=
  match v with
  | .dict d =>
      match d.lookup k with
      | some x => .ok x
      | none => .error (.keyError k)
  | _ => .error (.typeError "value is not subscriptable")

/-- A pandas DataFrame: ordered column names plus a row-major cell matrix
(every row has one cell per column). -/
structure DataFrame where
  cols : List String
  rows : List (List Value)
deriving Repr

/-- Cell of a row under a column name (rows are aligned with `cols`). -/
def rowCell (cols : List String) (row : List Value) (c : String) : Value :=
  ((cols.zip row).lookup c).getD .vnan

/-- The cell series of one column, top to bottom (pandas `df[c]`). -/
def getCol (df : DataFrame) (c : String) : List Value :=
  df.rows.map (fun row => rowCell df.cols row c)

/-- Column names of a document set in order of first appearance — the column
order `pd.DataFrame(list_of_dicts)` and `pd.json_normalize` produce. -/
def collectCols (docs : List Document) : List String :=
  docs.foldl foldKeys []

/-- Python `pd.DataFrame(list_of_dicts)`: columns are the union of the keys
in first-appearance order; a document missing a key gets `NaN` there. -/
def dataFrameOfDocs (docs : List Document) : DataFrame :=
  let cols := collectCols docs
  ⟨cols, docs.map (fun d => cols.map (fun c => (d.lookup c).getD .vnan))⟩

mutual

/-- One key-value pair as `pd.json_normalize` flattens it: nested dict values
expand recursively into dot-joined keys; everything else stays. -/
def flattenPair (k : String) : Value → List (String × Value)
  | .dict d => flattenPairs k d
  | v => [(k, v)]

/-- Flattening of the pairs of a nested dict under prefixed keys. -/
def flattenPairs (k : String) : List (String × Value) → List (String × Value)
  | [] => []
  | (k2, v) :: rest => flattenPair (k ++ "." ++ k2) v ++ flattenPairs k rest

end

/-- Flattening of one document, `pd.json_normalize` style (lists are left
untouched; only nested dicts expand). -/
def flattenDoc : Document → Document
  | [] => []
  | (k, v) :: rest => flattenPair k v ++ flattenDoc rest

/-- Python `pd.json_normalize(data)` on a list of documents. -/
def jsonNormalize (docs : List Document) : DataFrame :=
  dataFrameOfDocs (docs.map flattenDoc)

/-- Python `df[sel]` with a list of column labels: if every label is a column
of the frame, the result keeps exactly the labels, in the given order; the
labels absent from the frame are otherwise reported together in one
`KeyError` (pandas: "[...] not in index"). -/
def dfSelect (df : DataFrame) (sel : List String) : Except PyErr DataFrame :=
  let missing := sel.filter (fun c => c ∉ df.cols)
  if missing.isEmpty then
    .ok ⟨sel, df.rows.map (fun row => sel.map (fun c => rowCell df.cols row c))⟩
  else
    .error (.colsNotFound missing)

/-- Apply a fallible cell function at the position(s) of one column label. -/
def mapAt (cols : List String) (row : List Value) (c : String)
    (f : Value → Except PyErr Value) : Except PyErr (List Value) :=
  match cols, row with
  | [], _ => .ok row
  | _, [] => .ok []
  | k :: ks, v :: vs => do
      let v' ← if k == c then f v else pure v
      let vs' ← mapAt ks vs c f
      .ok (v' :: vs')

/-- Python `df[c] = df[c].apply(f)` for a fallible elementwise `f`: reading a
missing column raises `KeyError`. -/
def applyCol (df : DataFrame) (c : String)
    (f : Value → Except PyErr Value) : Except PyErr DataFrame :=
  if c ∈ df.cols then do
    let rows ← df.rows.mapM (fun row => mapAt df.cols row c f)
    .ok ⟨df.cols, rows⟩
  else
    .error (.keyError c)

/-- Apply a total cell function at the position(s) of one column label. -/
def mapAtPure (cols : List String) (row : List Value) (c : String)
    (f : Value → Value) : List Value :=
  match cols, row with
  | [], _ => row
  | _, [] => []
  | k :: ks, v :: vs => (if k == c then f v else v) :: mapAtPure ks vs c f

/-- Python `df[c] = df[c].fillna(0)`: nulls of the column become `0`, in the
caller's frame. -/
def fillna0 (df : DataFrame) (c : String) : DataFrame :=
  ⟨df.cols, df.rows.map (fun row => mapAtPure df.cols row c
    (fun v => if v.isNull then .num 0 else v))⟩

/-- Whether a character list is all decimal digits and non-empty. -/
def allDigits (cs : List Char) : Bool :=
  !cs.isEmpty && cs.all Char.isDigit

/-- Numeric value of a list of decimal digits. -/
def digitsToNat (cs : List Char) : Nat :=
  cs.foldl (fun acc c => acc * 10 + (c.toNat - 48)) 0

/-- Split a character list at a separator character. -/
def splitOnChar (sep : Char) : List Char → List (List Char)
  | [] => [[]]
  | c :: cs =>
      let rest := splitOnChar sep cs
      if c == sep then [] :: rest
      else
        match rest with
        | [] => [[c]]
        | r :: rs => (c :: r) :: rs

/-- Gregorian leap-year test. -/
def isLeap (y : Nat) : Bool :=
  (y % 4 == 0 && y % 100 != 0) || y % 400 == 0

/-- Days of a month in a given year. -/
def daysInMonth (y m : Nat) : Nat :=
  if m == 2 then (if isLeap y then 29 else 28)
  else if m == 4 || m == 6 || m == 9 || m == 11 then 30
  else 31

/-- Validity of a `YYYY-MM-DD` calendar date. -/
def dateOk (cs : List Char) : Bool :=
  match splitOnChar '-' cs with
  | [y, m, d] =>
      y.length == 4 && m.length == 2 && d.length == 2 &&
      allDigits y && allDigits m && allDigits d &&
      1 ≤ digitsToNat m && digitsToNat m ≤ 12 &&
      1 ≤ digitsToNat d && digitsToNat d ≤ daysInMonth (digitsToNat y) (digitsToNat m)
  | _ => false

/-- Validity of an `HH:MM:SS` time, with an optional trailing `Z`. -/
def timeOk (cs : List Char) : Bool :=
  let core := if cs.getLast? == some 'Z' then cs.dropLast else cs
  match splitOnChar ':' core with
  | [h, mi, se] =>
      h.length == 2 && mi.length == 2 && se.length == 2 &&
      allDigits h && allDigits mi && allDigits se &&
      digitsToNat h ≤ 23 && digitsToNat mi ≤ 59 && digitsToNat se ≤ 59
  | _ => false

/-- Validity of an ISO `date` or `dateTtime` string. -/
def isoDateValid (s : String) : Bool :=
  match splitOnChar 'T' s.toList with
  | [d] => dateOk d
  | [d, t] => dateOk d && timeOk t
  | _ => false

/-- Modelled from the spec: the external pandas parser
`pd.to_datetime(v, errors="coerce")` on the value shapes the ETL feeds it —
a string parses when it is a well-formed ISO calendar date or timestamp, a
number parses as an epoch instant, and `NaN`, `None`, booleans and
containers coerce to `NaT` (invalid). -/
def pdToDatetimeOk : Value → Bool
  | .str s => isoDateValid s
  | .num _ => true
  | _ => false

/-- Whether a character list is a decimal numeral with an optional sign and
an optional fractional part. -/
def numeralChars (cs : List Char) : Bool :=
  let body := match cs with
    | '-' :: rest => rest
    | '+' :: rest => rest
    | rest => rest
  match splitOnChar '.' body with
  | [w] => allDigits w
  | [w, f] => allDigits w && allDigits f
  | _ => false

/-- Modelled from the spec: the external pandas coercion
`pd.to_numeric(v, errors="coerce")` succeeding — numbers and booleans are
numeric, strings are numeric when they are decimal numerals, everything
else coerces to `NaN`. -/
def pdToNumericOk : Value → Bool
  | .num _ => true
  | .bool _ => true
  | .str s => numeralChars s.toList
  | _ => false

/-- Python `v in [True, False, 1, 0]` elementwise, as `Series.isin` runs it. -/
def isBoolish : Value → Bool
  | .bool _ => true
  | .num 1 => true
  | .num 0 => true
  | _ => false

/-- Whether a string contains another as a substring (kernel-reducible
replacement for Python `"date" in column_type`). -/
def isPrefixChars : List Char → List Char → Bool
  | [], _ => true
  | _ :: _, [] => false
  | a :: as, b :: bs => a == b && isPrefixChars as bs

/-- Substring search over character lists. -/
def containsChars (n : List Char) : List Char → Bool
  | [] => isPrefixChars n []
  | c :: cs => isPrefixChars n (c :: cs) || containsChars n cs

/-- Python `needle in hay` for strings. -/
def strContainsSub (hay needle : String) : Bool :=
  containsChars needle.toList hay.toList

/-- Body of `DataValidator.check_empty_or_null_and_raise`, before its blanket
`except Exception` handler: `KeyError` for a missing column, then
`PrimaryKeyViolationException` when the column holds a null or an empty
string. -/
def checkEmptyOrNullBody (df : DataFrame) (c : String) : Except PyErr Unit :=
  if c ∉ df.cols then
    .error (.keyError ("Column " ++ c ++ " does not exist in the DataFrame."))
  else
    let col := getCol df c
    if col.any Value.isNull || col.any Value.isEmptyStr then
      .error (.primaryKeyViolation
        ("Primary key violation: Column " ++ c ++ " contains null or empty values."))
    else
      .ok ()

/-- Body of `DataValidator.check_duplicates_and_raise`, before its blanket
`except Exception` handler: `KeyError` for a missing column, then
`PrimaryKeyViolationException` when the column holds a duplicate value. -/
def checkDuplicatesBody (df : DataFrame) (c : String) : Except PyErr Unit :=
  if c ∉ df.cols then
    .error (.keyError ("Column " ++ c ++ " does not exist in the DataFrame."))
  else if hasDup (getCol df c) then
    .error (.primaryKeyViolation
      ("Primary key violation: Column " ++ c ++ " contains duplicate values."))
  else
    .ok ()

/-- The `except Exception: logger.exception(...); sys.exit(1)` wrapper both
`DataValidator` checks end with: every failure, whatever it was, becomes a
process exit with code 1. -/
def exitWrap (r : Except PyErr Unit) : Except PyErr Unit :=
  match r with
  | .ok _ => .ok ()
  | .error _ => .error (.systemExit 1)

/-- Python `DataValidator.check_empty_or_null_and_raise(df, c)`. -/
def check_empty_or_null_and_raise (df : DataFrame) (c : String) : Except PyErr Unit :=
  exitWrap (checkEmptyOrNullBody df c)

/-- Python `DataValidator.check_duplicates_and_raise(df, c)`. -/
def check_duplicates_and_raise (df : DataFrame) (c : String) : Except PyErr Unit :=
  exitWrap (checkDuplicatesBody df c)

/-- Python `DataQuality.validate_date_column(df, c)`: every cell must survive
`pd.to_datetime(..., errors="coerce")`; any `NaT` raises `ValueError`.
Succeeds without touching the frame. -/
def validate_date_column (df : DataFrame) (c : String) : Except PyErr DataFrame :=
  if c ∉ df.cols then
    .error (.keyError ("Column " ++ c ++ " does not exist in the DataFrame."))
  else if (getCol df c).any (fun v => !pdToDatetimeOk v) then
    .error (.valueError ("Invalid dates found in column " ++ c ++ "."))
  else
    .ok df

/-- Python `DataQuality.validate_id_column(df, c, max_length)`: `ValueError`
when the column holds a null or empty value, when some `len(str(x))` exceeds
the bound, or when some `len(str(x))` is below the bound — so only columns of
exactly that width pass. Succeeds without touching the frame. -/
def validate_id_column (df : DataFrame) (c : String) (maxLength : Nat) :
    Except PyErr DataFrame :=
  if c ∉ df.cols then
    .error (.keyError ("Column " ++ c ++ " does not exist in the DataFrame."))
  else
    let col := getCol df c
    if col.any (fun v => v.isNull || v.isEmptyStr) then
      .error (.valueError ("Null or empty values found in ID column " ++ c ++ "."))
    else if col.any (fun v => maxLength < pyStrLen v) then
      .error (.valueError ("Values exceeding max length found in ID column " ++ c ++ "."))
    else if col.any (fun v => pyStrLen v < maxLength) then
      .error (.valueError ("Values less than max length found in ID column " ++ c ++ "."))
    else
      .ok df

/-- Python `DataQuality.validate_column_types(df, c, expected_type)`. For
`float` the column's nulls are first overwritten with `0` IN the caller's
frame (`df[c] = df[c].fillna(0)`), then every cell must be numeric-coercible;
for `boolean` every cell must be in `[True, False, 1, 0]`; `varchar` and any
other type only log. The returned frame is the post-state of `df`. -/
def validate_column_types (df : DataFrame) (c : String) (expectedType : String) :
    Except PyErr DataFrame :=
  if c ∉ df.cols then
    .error (.keyError ("Column " ++ c ++ " does not exist in the DataFrame."))
  else if expectedType == "float" then
    let df' := fillna0 df c
    if (getCol df' c).all pdToNumericOk then
      .ok df'
    else
      .error (.valueError ("Column " ++ c ++ " contains non-float values."))
  else if expectedType == "boolean" then
    if (getCol df c).all isBoolish then
      .ok df
    else
      .error (.valueError ("Column " ++ c ++ " contains non-boolean values."))
  else
    .ok df

/-- One column definition of a table schema (`name`, `type`, optional
`length`), as read from the schema configuration. -/
structure ColumnDef where
  name : String
  type : String
  length : Option Nat
deriving Repr, DecidableEq

/-- Python `DataQuality.check_data_quality_dataframe(df, table_name)`:
look the table's schema up (a missing or empty schema is `ValueError`), then
per column definition, in schema order, run the date check when the type
contains `"date"`, the id check for `varchar` columns carrying a `length`,
and the type check for `float`/`boolean` columns, threading the frame (the
float check mutates it). -/
def check_data_quality_dataframe (schemaDefs : List (String × List ColumnDef))
    (df : DataFrame) (tableName : String) : Except PyErr DataFrame :=
  match schemaDefs.lookup tableName with
  | none => .error (.valueError ("No schema found for table " ++ tableName ++ "."))
  | some [] => .error (.valueError ("No schema found for table " ++ tableName ++ "."))
  | some schema =>
      schema.foldlM
        (fun df cd => do
          let df ← if strContainsSub cd.type "date" then
              validate_date_column df cd.name
            else pure df
          let df ← if cd.type == "varchar" then
              match cd.length with
              | some n => validate_id_column df cd.name n
              | none => pure df
            else pure df
          if cd.type == "float" || cd.type == "boolean" then
            validate_column_types df cd.name cd.type
          else pure df)
        df

/-- Modelled from the spec: the per-collection rename tables of
`column_mappings.yml` (the configuration file is not under `src/`; the
mappings are reconstructed from the spec's MappingSpec description and the
repository's expected-output fixtures). -/
def column_rename (case : String) : List (String × String) :=
  match case with
  | "clients" =>
      [("_id.$oid", "client_id"),
       ("contract_start.$date", "contract_start_date"),
       ("contract_end.$date", "contract_end_date")]
  | "suppliers" =>
      [("_id.$oid", "supplier_id")]
  | "supplier_group" => []
  | "sonar_runs" =>
      [("_id.$oid", "sonar_run_id"),
       ("client_id.$oid", "client_id"),
       ("time.$date", "sonar_run_time"),
       ("date.$date", "sonar_run_date")]
  | "sonar_results" =>
      [("_id.$oid", "sonar_result_id"),
       ("supplier_id.$oid", "supplier_id"),
       ("sonar_run_id.$oid", "sonar_run_id"),
       ("part_id.$oid", "part_id"),
       ("date_sonar.$date", "date_sonar"),
       ("date_found.$date", "date_found")]
  | _ => []

/-- Modelled from the spec: the per-collection ordered select lists of
`column_mappings.yml` (the configuration file is not under `src/`). -/
def column_select (case : String) : List String :=
  match case with
  | "clients" =>
      ["client_id", "name", "contract_start_date", "contract_end_date",
       "sonar_dates", "suppliers"]
  | "suppliers" =>
      ["supplier_id", "name", "country", "page_status", "login",
       "automatic_priority", "alias", "date", "priority", "currency"]
  | "sonar_runs" =>
      ["sonar_run_id", "client_id", "countries", "supplier_ids",
       "client_part_ids", "status", "category", "sonar_run_time",
       "sonar_run_date"]
  | "sonar_results" =>
      ["sonar_result_id", "supplier_id", "sonar_run_id", "part_id",
       "date_sonar", "date_found", "price_norm", "currency", "unit",
       "country", "status"]
  | _ => []

/-- Modelled from the spec: the `schema_definitions` section of
`column_mappings.yml` (the configuration file is not under `src/`; per-table
column definitions follow the spec's TableSchema description, with 24 the
fixed width of the Mongo object ids of the fixtures). -/
def schema_definitions : List (String × List ColumnDef) :=
  [("clients",
    [⟨"client_id", "varchar", some 24⟩,
     ⟨"contract_start_date", "date", none⟩,
     ⟨"contract_end_date", "date", none⟩]),
   ("supplier_group",
    [⟨"client_id", "varchar", some 24⟩]),
   ("suppliers",
    [⟨"supplier_id", "varchar", some 24⟩,
     ⟨"login", "boolean", none⟩,
     ⟨"automatic_priority", "float", none⟩,
     ⟨"date", "date", none⟩,
     ⟨"priority", "float", none⟩]),
   ("sonar_runs",
    [⟨"sonar_run_id", "varchar", some 24⟩,
     ⟨"sonar_run_date", "date", none⟩]),
   ("sonar_results",
    [⟨"sonar_result_id", "varchar", some 24⟩,
     ⟨"date_sonar", "date", none⟩,
     ⟨"date_found", "date", none⟩,
     ⟨"price_norm", "float", none⟩])]

/-- Python `TransformationFactory.rename_columns(df, case)`: relabel the
columns through the case's rename table; labels absent from the table pass
through unchanged. -/
def rename_columns (df : DataFrame) (case : String) : DataFrame :=
  ⟨df.cols.map (fun c => ((column_rename case).lookup c).getD c), df.rows⟩

/-- Python `extract_values(value)` (the inner helper of
`TransformationFactory.process_dict_columns`): a list whose members are all
dicts and whose key union is a single key is replaced by the list of values
under that key (a member lacking the key raises `KeyError`); anything else
is returned unchanged. -/
def extract_values (v : Value) : Except PyErr Value :=
  match v with
  | .list xs =>
      if xs.all Value.isDict then
        match unionKeys xs with
        | [k] => do
            let vals ← xs.mapM (fun item => dictGetKey item k)
            .ok (.list vals)
        | _ => .ok v
      else .ok v
  | v => .ok v

/-- Python `TransformationFactory.process_dict_columns(df, column_names)`:
apply `extract_values` over each named column in turn; a name that is not a
column of the frame raises `KeyError`. -/
def process_dict_columns (df : DataFrame) (columnNames : List String) :
    Except PyErr DataFrame :=
  columnNames.foldlM
    (fun df name =>
      if name ∈ df.cols then applyCol df name extract_values
      else .error (.keyError ("Column " ++ name ++ " not found in DataFrame.")))
    df

/-- The `try: ... except SystemExit as e: print(...)` block every collection
transform ends with: run both `DataValidator` checks and the schema-driven
quality check, but CATCH a `SystemExit` (which is all the validator checks
can raise) and fall through to returning the selected frame unchanged; other
exceptions propagate. -/
def transform_checks (idCol tableName : String) (df : DataFrame) :
    Except PyErr DataFrame :=
  let body : Except PyErr DataFrame := do
    let _ ← check_empty_or_null_and_raise df idCol
    let _ ← check_duplicates_and_raise df idCol
    check_data_quality_dataframe schema_definitions df tableName
  match body with
  | .error (.systemExit _) => .ok df
  | r => r

/-- Python `TransformationFactory.transform_clients(data)`. -/
def transform_clients (data : List Document) : Except PyErr DataFrame := do
  let df := jsonNormalize data
  let df := rename_columns df "clients"
  let df ← process_dict_columns df ["suppliers", "sonar_dates"]
  let client_df ← dfSelect df (column_select "clients")
  transform_checks "client_id" "clients" client_df

/-- The lambda of `transform_supplier_group` that post-processes the
`client_id` column: `x["$oid"] if isinstance(x, dict) and "$oid" in x else
None`. -/
def oidLambda (x : Value) : Value :=
  match x with
  | .dict d =>
      match d.lookup "$oid" with
      | some v => v
      | none => .vnone
  | _ => .vnone

/-- The record literal appended by the row-building loop of
`transform_supplier_group`:
`{"client_id": ..., "group_name": ..., "supplier_id": ...}`. -/
def memberRecord (cid : Value) (g : String) (sid : Value) : Document :=
  [("client_id", cid), ("group_name", Value.str g), ("supplier_id", sid)]

/-- The nested row-building loops of `transform_supplier_group`, for one row
of the selected frame: skip a falsy `supplier_groups` cell; otherwise call
`.items()` on it (anything but a dict raises `AttributeError`), and for each
group iterate the member list (anything else raises `TypeError`), emitting
one `{client_id, group_name, supplier_id}` record per member, where the
member is subscripted with `supplier["$oid"]`. -/
def expandGroupsRow (cid sg : Value) : Except PyErr (List Document) :=
  if sg.truthy then
    match sg with
    | .dict groups => do
        let rowss ← groups.mapM (fun gp =>
          match gp.2 with
          | .list members =>
              members.mapM (fun m => do
                let sid ← dictGetKey m "$oid"
                pure (memberRecord cid gp.1 sid))
          | _ => .error (.typeError "cannot iterate over a non-list value"))
        pure rowss.flatten
    | _ => .error (.attributeError "value has no attribute items")
  else
    .ok []

/-- Python `TransformationFactory.transform_supplier_group(data)`: build the
frame, rename, take the `client_id` and `supplier_groups` columns, expand
the nested groups into one record per member, rebuild a frame from those
records and post-process its `client_id` column with `oidLambda`. -/
def transform_supplier_group (data : List Document) : Except PyErr DataFrame := do
  let df := dataFrameOfDocs data
  let df := rename_columns df "supplier_group"
  let sub ← dfSelect df ["client_id", "supplier_groups"]
  let rowss ← sub.rows.mapM (fun row =>
    expandGroupsRow (rowCell sub.cols row "client_id")
      (rowCell sub.cols row "supplier_groups"))
  let df2 := dataFrameOfDocs rowss.flatten
  applyCol df2 "client_id" (fun v => .ok (oidLambda v))

/-- Python `TransformationFactory.transform_suppliers(data)`. -/
def transform_suppliers (data : List Document) : Except PyErr DataFrame := do
  let df := jsonNormalize data
  let df := rename_columns df "suppliers"
  let supplier_df ← dfSelect df (column_select "suppliers")
  transform_checks "supplier_id" "suppliers" supplier_df

/-- The lambda `transform_sonar_runs` applies to `supplier_ids` and
`client_part_ids`: a list is replaced by the list of its members' `$oid`
values (`item["$oid"]`); anything else becomes the empty list. -/
def sonarFlattenLambda (v : Value) : Except PyErr Value :=
  match v with
  | .list xs => do
      let vals ← xs.mapM (fun item => dictGetKey item "$oid")
      pure (.list vals)
  | _ => .ok (.list [])

/-- Python `TransformationFactory.transform_sonar_runs(data)`. -/
def transform_sonar_runs (data : List Document) : Except PyErr DataFrame := do
  let df := jsonNormalize data
  let df ← applyCol df "supplier_ids" sonarFlattenLambda
  let df ← applyCol df "client_part_ids" sonarFlattenLambda
  let df := rename_columns df "sonar_runs"
  let sonar_run_df ← dfSelect df (column_select "sonar_runs")
  transform_checks "sonar_run_id" "sonar_runs" sonar_run_df

/-- Python `TransformationFactory.transform_sonar_results(data)`. -/
def transform_sonar_results (data : List Document) : Except PyErr DataFrame := do
  let df := jsonNormalize data
  let df := rename_columns df "sonar_results"
  let sonar_result_df ← dfSelect df (column_select "sonar_results")
  transform_checks "sonar_result_id" "sonar_results" sonar_result_df

/-- Python `TransformationFactory.transform(data, case)`: string-keyed
dispatch over the five collection cases; any other case raises
`ValueError("Unknown transformation case: ...")`. -/
def transform (data : List Document) (case : String) : Except PyErr DataFrame :=
  if case == "clients" then transform_clients data
  else if case == "supplier_group" then transform_supplier_group data
  else if case == "suppliers" then transform_suppliers data
  else if case == "sonar_runs" then transform_sonar_runs data
  else if case == "sonar_results" then transform_sonar_results data
  else .error (.valueError ("Unknown transformation case: " ++ case))

/-- Extraction of the `$oid` field of a member wrapper (the value
`supplier["$oid"]` yields when it succeeds). -/
def oidField : Value → Value
  | .dict d => (d.lookup "$oid").getD .vnan
  | _ => .vnan

/-- A well-shaped supplier-group member: a dict carrying a `$oid` key. -/
def memberOk : Value → Bool
  | .dict d => (d.lookup "$oid").isSome
  | _ => false

/-- A well-shaped group entry: a list of well-shaped members. -/
def groupOk : Value → Bool
  | .list members => members.all memberOk
  | _ => false

/-- A well-shaped supplier_group document: it carries a `client_id` field and
its `supplier_groups` field is present and is a mapping from group names to
lists of `$oid`-wrapped members. -/
def sgDocOk (doc : Document) : Bool :=
  (doc.lookup "client_id").isSome &&
    match doc.lookup "supplier_groups" with
    | some (.dict groups) => groups.all (fun gp => groupOk gp.2)
    | _ => false

/-- The records one document contributes, in group order then member order
(used to relate the imperative loop to the claimed expansion). -/
def sgRecords (doc : Document) : List Document :=
  match doc.lookup "supplier_groups" with
  | some (.dict groups) =>
      groups.flatMap (fun gp =>
        match gp.2 with
        | .list members =>
            members.map (fun m =>
              memberRecord ((doc.lookup "client_id").getD .vnan) gp.1 (oidField m))
        | _ => [])
  | _ => []

/-- Spec-side expansion, following the claim's words: one output row per
(client_id, group_name, member) triple, ordered by outer document order,
then group iteration order, then member list order; a document whose
supplier_groups mapping is empty contributes zero rows. Each row holds the
unwrapped client id, the group name and the member's unwrapped id. -/
def specTriples (data : List Document) : List (List Value) :=
  data.flatMap (fun doc =>
    match doc.lookup "supplier_groups" with
    | some (.dict groups) =>
        groups.flatMap (fun gp =>
          match gp.2 with
          | .list members =>
              members.map (fun m =>
                [oidLambda ((doc.lookup "client_id").getD .vnan),
                 Value.str gp.1, oidField m])
          | _ => [])
    | _ => [])

/-- A clients document set whose two documents share the same `_id.$oid`
(the duplicate-primary-key scenario; field values follow the repository's
own test fixture). -/
def dupClientsInput : List Document :=
  [[("_id.$oid", .str "6086c347701bfd9e246ae133"),
    ("name", .str "John Doe"),
    ("contract_start.$date", .str "2023-01-01"),
    ("contract_end.$date", .str "2023-12-31"),
    ("sonar_dates", .list [.str "2023-02-01", .str "2023-05-01"]),
    ("suppliers", .list [.str "Supplier1", .str "Supplier2"])],
   [("_id.$oid", .str "6086c347701bfd9e246ae133"),
    ("name", .str "Jane Smith"),
    ("contract_start.$date", .str "2023-02-01"),
    ("contract_end.$date", .str "2023-11-30"),
    ("sonar_dates", .list [.str "2023-03-01", .str "2023-06-01"]),
    ("suppliers", .list [.str "Supplier3"])]]

/-- The table `transform_clients` produces for `dupClientsInput` — the
duplicate-keyed rows, fully selected and ordered. -/
def dupClientsFrame : DataFrame :=
  ⟨["client_id", "name", "contract_start_date", "contract_end_date",
    "sonar_dates", "suppliers"],
   [[.str "6086c347701bfd9e246ae133", .str "John Doe", .str "2023-01-01",
     .str "2023-12-31", .list [.str "2023-02-01", .str "2023-05-01"],
     .list [.str "Supplier1", .str "Supplier2"]],
    [.str "6086c347701bfd9e246ae133", .str "Jane Smith", .str "2023-02-01",
     .str "2023-11-30", .list [.str "2023-03-01", .str "2023-06-01"],
     .list [.str "Supplier3"]]]⟩

/-- The supplier_group input named by the claim: one client with groups
`g1 = [101, 102]` and `g2 = [103]`. -/
def sgInput : List Document :=
  [[("client_id", .dict [("$oid", .str "C1")]),
    ("supplier_groups", .dict
      [("g1", .list [.dict [("$oid", .str "101")], .dict [("$oid", .str "102")]]),
       ("g2", .list [.dict [("$oid", .str "103")]])])]]

/-- An `Except.error` result is never an `Except.ok` result. -/
theorem error_ne_ok {ε α : Type} (e : ε) (a : α) :
    (Except.error e : Except ε α) ≠ .ok a :=
  fun h => Except.noConfusion h

/-- Binding an `Except.ok` value just applies the continuation. -/
theorem except_bind_ok {ε α β : Type} (a : α) (f : α → Except ε β) :
    (Except.ok a : Except ε α) >>= f = f a := rfl

/-- A `mapM` whose function succeeds pointwise succeeds with the mapped
results. -/
theorem mapM_ok_of_forall {α β : Type} (f : α → Except PyErr β) (g : α → β)
    (xs : List α) (h : ∀ x ∈ xs, f x = .ok (g x)) : xs.mapM f = .ok (xs.map g) := by
  induction xs with
  | nil => rfl
  | cons x xs ih =>
      simp only [List.mapM_cons, List.map_cons]
      rw [h x (by simp)]
      rw [ih (fun y hy => h y (by simp [hy]))]
      rfl

/-- A `mapM` over a mapped list whose composite succeeds pointwise. -/
theorem mapM_map_ok {α β γ : Type} (r : α → β) (f : β → Except PyErr γ) (g : α → γ)
    (xs : List α) (h : ∀ x ∈ xs, f (r x) = .ok (g x)) :
    (xs.map r).mapM f = .ok (xs.map g) := by
  induction xs with
  | nil => rfl
  | cons x xs ih =>
      simp only [List.map_cons, List.mapM_cons]
      rw [h x (by simp)]
      rw [ih (fun y hy => h y (by simp [hy]))]
      rfl

/-- Folding a function that fixes the accumulator on every element of the
list leaves the accumulator unchanged. -/
theorem foldl_fixed {α β : Type} (f : β → α → β) (acc : β)
    (xs : List α) (h : ∀ x ∈ xs, f acc x = acc) : xs.foldl f acc = acc := by
  induction xs with
  | nil => rfl
  | cons x rest ih =>
      rw [List.foldl_cons, h x (by simp)]
      exact ih (fun y hy => h y (by simp [hy]))

/-- Pointwise-equal functions map lists to equal lists. -/
theorem map_congr_mem {α β : Type} (f g : α → β) (l : List α)
    (h : ∀ a ∈ l, f a = g a) : l.map f = l.map g := by
  induction l with
  | nil => rfl
  | cons a l ih =>
      rw [List.map_cons, List.map_cons, h a (by simp),
        ih (fun x hx => h x (by simp [hx]))]

/-- Mapping over a `flatMap` maps inside each produced chunk. -/
theorem map_flatMap_chunks {α β γ : Type} (g : β → γ) (f : α → List β) (l : List α) :
    (l.flatMap f).map g = l.flatMap (fun a => (f a).map g) := by
  induction l with
  | nil => rfl
  | cons a l ih => simp only [List.flatMap_cons, List.map_append, ih]

/-- Pointwise-equal chunk functions produce equal `flatMap`s. -/
theorem flatMap_congr_mem {α β : Type} (f g : α → List β) (l : List α)
    (h : ∀ a ∈ l, f a = g a) : l.flatMap f = l.flatMap g := by
  induction l with
  | nil => rfl
  | cons a l ih =>
      simp only [List.flatMap_cons]
      rw [h a (by simp), ih (fun x hx => h x (by simp [hx]))]

/-- Looking a present label up in a row built by mapping over the column
list lands on that label's image. -/
theorem lookup_zip_map {α : Type} (f : String → α) :
    ∀ (cols : List String) (c : String), c ∈ cols →
      (cols.zip (cols.map f)).lookup c = some (f c) := by
  intro cols
  induction cols with
  | nil => intro c hc; cases hc
  | cons k ks ih =>
      intro c hc
      simp only [List.map_cons, List.zip_cons_cons, List.lookup]
      by_cases h : c = k
      · subst h; simp
      · have hb : (c == k) = false := beq_eq_false_iff_ne.mpr h
        rw [hb]
        refine ih c ?_
        rcases List.mem_cons.mp hc with h1 | h1
        · exact absurd h1 h
        · exact h1

/-- A cell of a row built by mapping over the columns is the image of the
column label. -/
theorem rowCell_map (cols : List String) (f : String → Value) (c : String)
    (hc : c ∈ cols) : rowCell cols (cols.map f) c = f c := by
  unfold rowCell
  rw [lookup_zip_map f cols c hc]
  rfl

/-- Adding a key only grows the key set. -/
theorem subset_addKey (acc : List String) (k : String) : acc ⊆ addKey acc k := by
  unfold addKey
  split
  · exact fun _ hx => hx
  · exact fun _ hx => List.mem_append_left _ hx

/-- The added key is in the grown key set. -/
theorem mem_addKey (acc : List String) (k : String) : k ∈ addKey acc k := by
  unfold addKey
  split
  · assumption
  · exact List.mem_append_right _ (by simp)

/-- Adding an already-present key changes nothing. -/
theorem addKey_eq_of_mem {acc : List String} {k : String} (h : k ∈ acc) :
    addKey acc k = acc := by
  unfold addKey
  rw [if_pos h]

/-- Folding a document's keys only grows the key set. -/
theorem subset_foldKeys (d : Document) :
    ∀ acc : List String, acc ⊆ foldKeys acc d := by
  induction d with
  | nil => intro acc x hx; exact hx
  | cons kv rest ih =>
      intro acc
      unfold foldKeys
      rw [List.foldl_cons]
      intro x hx
      exact ih (addKey acc kv.1) (subset_addKey acc kv.1 hx)

/-- A key with a successful lookup lands in the folded key set. -/
theorem mem_foldKeys_of_lookup {d : Document} {k : String} {v : Value}
    (h : d.lookup k = some v) :
    ∀ acc : List String, k ∈ foldKeys acc d := by
  induction d with
  | nil => simp [List.lookup] at h
  | cons kv rest ih =>
      intro acc
      rcases kv with ⟨k2, v2⟩
      unfold foldKeys
      rw [List.foldl_cons]
      by_cases hk : k = k2
      · subst hk
        exact subset_foldKeys rest _ (mem_addKey acc k)
      · have hb : (k == k2) = false := beq_eq_false_iff_ne.mpr hk
        rw [List.lookup, hb] at h
        exact ih h _

/-- Folding documents into a column accumulator only grows it. -/
theorem subset_collectAux (docs : List Document) :
    ∀ acc, acc ⊆ docs.foldl foldKeys acc := by
  induction docs with
  | nil => intro acc x hx; exact hx
  | cons d rest ih =>
      intro acc
      rw [List.foldl_cons]
      intro x hx
      exact ih _ (subset_foldKeys d acc hx)

/-- A key present in a member document lands in the accumulated columns. -/
theorem mem_collectCols_aux {doc : Document} {k : String} {v : Value}
    (hk : doc.lookup k = some v) :
    ∀ (docs : List Document), doc ∈ docs → ∀ acc, k ∈ docs.foldl foldKeys acc := by
  intro docs
  induction docs with
  | nil => intro hd; cases hd
  | cons d rest ih =>
      intro hd acc
      rw [List.foldl_cons]
      rcases List.mem_cons.mp hd with h1 | h1
      · subst h1
        exact subset_collectAux rest _ (mem_foldKeys_of_lookup hk acc)
      · exact ih h1 _

/-- A key present in some document is a column of the built frame. -/
theorem mem_collectCols {docs : List Document} {doc : Document} {k : String} {v : Value}
    (hd : doc ∈ docs) (hk : doc.lookup k = some v) : k ∈ collectCols docs :=
  mem_collectCols_aux hk docs hd []

/-- The key union of a non-empty list of single-key dicts on key `k` is
exactly `[k]`. -/
theorem unionKeys_singleton (k : String) (v0 : Value) (rest : List Value) :
    unionKeys ((v0 :: rest).map (fun v => Value.dict [(k, v)])) = [k] := by
  unfold unionKeys
  simp only [List.map_cons, List.foldl_cons]
  have h0 : unionStep [] (Value.dict [(k, v0)]) = [k] := by
    simp [unionStep, foldKeys, addKey]
  rw [h0]
  apply foldl_fixed
  intro x hx
  rw [List.mem_map] at hx
  obtain ⟨v, hv, rfl⟩ := hx
  simp [unionStep, foldKeys, addKey_eq_of_mem (by simp : k ∈ [k])]

/-- Subscripting a well-shaped member with `$oid` extracts its oid field. -/
theorem dictGetKey_oid {m : Value} (h : memberOk m = true) :
    dictGetKey m "$oid" = .ok (oidField m) := by
  cases m with
  | dict d =>
      cases hl : d.lookup "$oid" with
      | none => simp only [memberOk] at h; rw [hl] at h; simp at h
      | some v => simp [dictGetKey, oidField, hl]
  | str s => simp [memberOk] at h
  | num n => simp [memberOk] at h
  | bool b => simp [memberOk] at h
  | vnan => simp [memberOk] at h
  | vnone => simp [memberOk] at h
  | list l => simp [memberOk] at h

/-- On a well-shaped document the imperative group-expansion loop succeeds
and produces exactly the document's records, in group order then member
order. -/
theorem expandGroupsRow_ok (doc : Document) (h : sgDocOk doc = true) :
    expandGroupsRow ((doc.lookup "client_id").getD .vnan)
      ((doc.lookup "supplier_groups").getD .vnan) = .ok (sgRecords doc) := by
  unfold sgDocOk at h
  rw [Bool.and_eq_true] at h
  obtain ⟨hcid, hsg⟩ := h
  cases hlu : doc.lookup "supplier_groups" with
  | none => rw [hlu] at hsg; simp at hsg
  | some sgv =>
      rw [hlu] at hsg
      cases sgv with
      | dict groups =>
          unfold sgRecords
          rw [hlu]
          simp only [Option.getD_some]
          cases groups with
          | nil => rfl
          | cons g gs =>
              have hmapM : (g :: gs).mapM (fun gp : String × Value =>
                  match gp.2 with
                  | Value.list members =>
                      members.mapM (fun m => do
                        let sid ← dictGetKey m "$oid"
                        pure (memberRecord ((doc.lookup "client_id").getD .vnan) gp.1 sid))
                  | _ => .error (.typeError "cannot iterate over a non-list value")) =
                  .ok ((g :: gs).map (fun gp : String × Value =>
                    match gp.2 with
                    | Value.list members =>
                        members.map (fun m =>
                          memberRecord ((doc.lookup "client_id").getD .vnan) gp.1 (oidField m))
                    | _ => [])) := by
                apply mapM_ok_of_forall
                intro gp hgp
                rw [List.all_eq_true] at hsg
                have hgok := hsg gp hgp
                cases hv2 : gp.2 with
                | list members =>
                    rw [hv2] at hgok
                    unfold groupOk at hgok
                    have hinner : members.mapM (fun m => do
                        let sid ← dictGetKey m "$oid"
                        pure (memberRecord ((doc.lookup "client_id").getD .vnan) gp.1 sid)) =
                        .ok (members.map (fun m =>
                          memberRecord ((doc.lookup "client_id").getD .vnan) gp.1 (oidField m))) := by
                      apply mapM_ok_of_forall
                      intro m hm
                      rw [List.all_eq_true] at hgok
                      rw [dictGetKey_oid (hgok m hm)]
                      rfl
                    simp only [hinner]
                | str s => rw [hv2] at hgok; simp [groupOk] at hgok
                | num n => rw [hv2] at hgok; simp [groupOk] at hgok
                | bool b => rw [hv2] at hgok; simp [groupOk] at hgok
                | vnan => rw [hv2] at hgok; simp [groupOk] at hgok
                | vnone => rw [hv2] at hgok; simp [groupOk] at hgok
                | dict d2 => rw [hv2] at hgok; simp [groupOk] at hgok
              show (do
                  let rowss ← (g :: gs).mapM (fun gp : String × Value =>
                    match gp.2 with
                    | Value.list members =>
                        members.mapM (fun m => do
                          let sid ← dictGetKey m "$oid"
                          pure (memberRecord ((doc.lookup "client_id").getD .vnan) gp.1 sid))
                    | _ => .error (.typeError "cannot iterate over a non-list value"))
                  pure rowss.flatten) = _
              rw [hmapM]
              rfl
      | str s => simp at hsg
      | num n => simp at hsg
      | bool b => simp at hsg
      | vnan => simp at hsg
      | vnone => simp at hsg
      | list l => simp at hsg

/-- Building a frame from a non-empty list of member records yields the
three junction columns in order, with the records as rows. -/
theorem dataFrameOfDocs_memberRecords (records : List Document)
    (hne : records ≠ [])
    (hshape : ∀ r ∈ records, ∃ cid g sid, r = memberRecord cid g sid) :
    dataFrameOfDocs records =
      ⟨["client_id", "group_name", "supplier_id"],
       records.map (fun r =>
         [(r.lookup "client_id").getD .vnan,
          (r.lookup "group_name").getD .vnan,
          (r.lookup "supplier_id").getD .vnan])⟩ := by
  have hcols : collectCols records = ["client_id", "group_name", "supplier_id"] := by
    cases records with
    | nil => exact absurd rfl hne
    | cons r0 rest =>
        unfold collectCols
        rw [List.foldl_cons]
        obtain ⟨cid, g, sid, rfl⟩ := hshape r0 (by simp)
        have h0 : foldKeys [] (memberRecord cid g sid) =
            ["client_id", "group_name", "supplier_id"] := rfl
        rw [h0]
        apply foldl_fixed
        intro r hr
        obtain ⟨cid2, g2, sid2, rfl⟩ := hshape r (by simp [hr])
        rfl
  simp only [dataFrameOfDocs]
  rw [hcols]
  rfl

/-- Post-processing the `client_id` column of the junction frame applies
`oidLambda` to the head cell of every row. -/
theorem applyCol_oid (rows : List (List Value))
    (hshape : ∀ row ∈ rows, ∃ a b c, row = [a, b, c]) :
    applyCol ⟨["client_id", "group_name", "supplier_id"], rows⟩ "client_id"
        (fun v => .ok (oidLambda v)) =
      .ok ⟨["client_id", "group_name", "supplier_id"],
        rows.map (fun row =>
          match row with
          | a :: rest => oidLambda a :: rest
          | [] => [])⟩ := by
  unfold applyCol
  rw [if_pos (by simp : "client_id" ∈
    (DataFrame.mk ["client_id", "group_name", "supplier_id"] rows).cols)]
  have hmapM : rows.mapM (fun row =>
      mapAt ["client_id", "group_name", "supplier_id"] row "client_id"
        (fun v => .ok (oidLambda v))) =
      .ok (rows.map (fun row =>
        match row with
        | a :: rest => oidLambda a :: rest
        | [] => [])) := by
    apply mapM_ok_of_forall
    intro row hr
    obtain ⟨a, b, c, rfl⟩ := hshape row hr
    rfl
  rw [hmapM]
  rfl

/-- The spec-side triples are the member records of all documents, rendered
as rows with the client id unwrapped. -/
theorem specTriples_eq (data : List Document) :
    specTriples data = (data.flatMap sgRecords).map (fun r =>
      [oidLambda ((r.lookup "client_id").getD .vnan),
       (r.lookup "group_name").getD .vnan,
       (r.lookup "supplier_id").getD .vnan]) := by
  rw [map_flatMap_chunks]
  unfold specTriples
  apply flatMap_congr_mem
  intro doc hdoc
  unfold sgRecords
  cases hlu : doc.lookup "supplier_groups" with
  | none => rfl
  | some sgv =>
      cases sgv with
      | dict groups =>
          rw [map_flatMap_chunks]
          apply flatMap_congr_mem
          intro gp hgp
          cases hv2 : gp.2 with
          | list members => rw [List.map_map]; rfl
          | str s => rfl
          | num n => rfl
          | bool b => rfl
          | vnan => rfl
          | vnone => rfl
          | dict d2 => rfl
      | str s => rfl
      | num n => rfl
      | bool b => rfl
      | vnan => rfl
      | vnone => rfl
      | list l => rfl

/-- C1: the claim says a clients document set with a duplicate `client_id`
must make the transform fail with `PrimaryKeyViolation` and must not reach
the Loader. The code detects the duplicate and raises the violation inside
`check_duplicates_and_raise`, but that function converts every failure into
`sys.exit(1)`, and `transform_clients` catches `SystemExit`, prints, and
returns the duplicate-keyed table anyway — so the table IS handed onward to
the Loader. This theorem evaluates the pipeline at the failing input: the
column is duplicated, the validator body raises `PrimaryKeyViolation`, the
wrapper turns it into `systemExit 1`, and yet `transform_clients` returns
the table successfully. -/
theorem claim_C1_duplicate_clients_reach_loader :
    hasDup (getCol dupClientsFrame "client_id") = true
    ∧ checkDuplicatesBody dupClientsFrame "client_id" =
        .error (.primaryKeyViolation
          "Primary key violation: Column client_id contains duplicate values.")
    ∧ check_duplicates_and_raise dupClientsFrame "client_id" = .error (.systemExit 1)
    ∧ transform_clients dupClientsInput = .ok dupClientsFrame :=
  ⟨rfl, rfl, rfl, rfl⟩

/-- C2 (amended): for every supplier_group document set in which each
document carries a `client_id` field and a `supplier_groups` mapping whose
group values are lists of `$oid`-wrapped members, and whose expansion is
non-empty, the transform produces exactly one output row per
(client_id, group_name, member) triple, ordered by outer document order,
then group iteration order, then member list order, over the columns
`client_id`, `group_name`, `supplier_id`; a document whose
`supplier_groups` mapping is empty contributes zero rows. (The amendment
restricts the claim to documents whose `supplier_groups` field is present —
an absent field makes the transform fail, see the counterexample — and to
non-empty overall expansions.) -/
theorem claim_C2_supplier_group_expansion (data : List Document)
    (hall : data.all sgDocOk = true)
    (hne : specTriples data ≠ []) :
    transform_supplier_group data =
      .ok ⟨["client_id", "group_name", "supplier_id"], specTriples data⟩ := by
  have hdata_ne : data ≠ [] := by
    intro h; subst h; exact hne rfl
  have hexistsdoc : ∃ doc, doc ∈ data ∧ sgDocOk doc = true := by
    cases data with
    | nil => exact absurd rfl hdata_ne
    | cons a b => exact ⟨a, by simp, List.all_eq_true.mp hall a (by simp)⟩
  obtain ⟨doc0, hdoc0mem, hdoc0ok⟩ := hexistsdoc
  have hcv : ∃ v, doc0.lookup "client_id" = some v := by
    unfold sgDocOk at hdoc0ok
    rw [Bool.and_eq_true] at hdoc0ok
    exact Option.isSome_iff_exists.mp hdoc0ok.1
  have hsv : ∃ v, doc0.lookup "supplier_groups" = some v := by
    unfold sgDocOk at hdoc0ok
    rw [Bool.and_eq_true] at hdoc0ok
    obtain ⟨-, h2⟩ := hdoc0ok
    cases hlu : doc0.lookup "supplier_groups" with
    | none => rw [hlu] at h2; simp at h2
    | some v => exact ⟨v, rfl⟩
  obtain ⟨cv, hcv⟩ := hcv
  obtain ⟨sv, hsv⟩ := hsv
  have hmem1 : "client_id" ∈ collectCols data := mem_collectCols hdoc0mem hcv
  have hmem2 : "supplier_groups" ∈ collectCols data := mem_collectCols hdoc0mem hsv
  have hren : rename_columns (dataFrameOfDocs data) "supplier_group" =
      dataFrameOfDocs data := by
    unfold rename_columns
    simp [column_rename]
  have hsel : dfSelect (dataFrameOfDocs data) ["client_id", "supplier_groups"] =
      .ok ⟨["client_id", "supplier_groups"],
        data.map (fun doc => [(doc.lookup "client_id").getD .vnan,
                              (doc.lookup "supplier_groups").getD .vnan])⟩ := by
    unfold dfSelect
    have hf : (["client_id", "supplier_groups"].filter
        (fun c => decide (c ∉ (dataFrameOfDocs data).cols))) = [] := by
      rw [List.filter_eq_nil_iff]
      intro c hcm
      rcases List.mem_cons.mp hcm with h | h
      · subst h; simp; exact hmem1
      · rcases List.mem_cons.mp h with h2 | h2
        · subst h2; simp; exact hmem2
        · cases h2
    have hrows : (dataFrameOfDocs data).rows = data.map (fun d =>
        (collectCols data).map (fun c => (d.lookup c).getD Value.vnan)) := rfl
    have hrweq : (dataFrameOfDocs data).rows.map
        (fun row => ["client_id", "supplier_groups"].map
          (fun c => rowCell (dataFrameOfDocs data).cols row c)) =
        data.map (fun doc => [(doc.lookup "client_id").getD Value.vnan,
                              (doc.lookup "supplier_groups").getD Value.vnan]) := by
      rw [hrows, List.map_map]
      apply map_congr_mem
      intro d hd
      show ["client_id", "supplier_groups"].map
          (fun c => rowCell (dataFrameOfDocs data).cols
            ((collectCols data).map (fun c => (d.lookup c).getD Value.vnan)) c) = _
      have hcolseq : (dataFrameOfDocs data).cols = collectCols data := rfl
      rw [hcolseq]
      simp only [List.map_cons, List.map_nil]
      rw [rowCell_map _ _ _ hmem1, rowCell_map _ _ _ hmem2]
    simp only [hf, List.isEmpty_nil, if_true]
    exact congrArg
      (fun r => Except.ok (DataFrame.mk ["client_id", "supplier_groups"] r)) hrweq
  have hrowss : (data.map (fun doc => [(doc.lookup "client_id").getD Value.vnan,
        (doc.lookup "supplier_groups").getD Value.vnan])).mapM
        (fun row => expandGroupsRow
          (rowCell ["client_id", "supplier_groups"] row "client_id")
          (rowCell ["client_id", "supplier_groups"] row "supplier_groups")) =
      .ok (data.map sgRecords) := by
    apply mapM_map_ok
    intro doc hd
    show expandGroupsRow ((doc.lookup "client_id").getD Value.vnan)
        ((doc.lookup "supplier_groups").getD Value.vnan) = .ok (sgRecords doc)
    exact expandGroupsRow_ok doc (List.all_eq_true.mp hall doc hd)
  have hrecne : data.flatMap sgRecords ≠ [] := by
    intro h
    rw [specTriples_eq data, h] at hne
    exact hne rfl
  have hshape : ∀ r ∈ data.flatMap sgRecords,
      ∃ cid g sid, r = memberRecord cid g sid := by
    intro r hr
    rw [List.mem_flatMap] at hr
    obtain ⟨doc, hdoc, hrdoc⟩ := hr
    unfold sgRecords at hrdoc
    split at hrdoc
    · rw [List.mem_flatMap] at hrdoc
      obtain ⟨gp, hgp, hrgp⟩ := hrdoc
      split at hrgp
      · rw [List.mem_map] at hrgp
        obtain ⟨m, hm, rfl⟩ := hrgp
        exact ⟨_, _, _, rfl⟩
      · cases hrgp
    · cases hrdoc
  have hframe := dataFrameOfDocs_memberRecords (data.flatMap sgRecords) hrecne hshape
  have happly := applyCol_oid ((data.flatMap sgRecords).map (fun r =>
      [(r.lookup "client_id").getD Value.vnan,
       (r.lookup "group_name").getD Value.vnan,
       (r.lookup "supplier_id").getD Value.vnan]))
    (by
      intro row hrow
      rw [List.mem_map] at hrow
      obtain ⟨r, hr, rfl⟩ := hrow
      exact ⟨_, _, _, rfl⟩)
  simp only [transform_supplier_group]
  rw [hren, hsel]
  rw [except_bind_ok]
  show ((data.map (fun doc => [(doc.lookup "client_id").getD Value.vnan,
        (doc.lookup "supplier_groups").getD Value.vnan])).mapM
        (fun row => expandGroupsRow
          (rowCell ["client_id", "supplier_groups"] row "client_id")
          (rowCell ["client_id", "supplier_groups"] row "supplier_groups")) >>=
      fun rowss => applyCol (dataFrameOfDocs rowss.flatten) "client_id"
        (fun v => .ok (oidLambda v))) = _
  rw [hrowss, except_bind_ok]
  show applyCol (dataFrameOfDocs (data.flatMap sgRecords)) "client_id"
      (fun v => .ok (oidLambda v)) = _
  rw [hframe, happly]
  rw [specTriples_eq data, List.map_map]
  rfl

/-- C2 witness: on the input named by the claim the transform yields exactly
the three rows (C1, g1, 101), (C1, g1, 102), (C1, g2, 103), in that order. -/
theorem claim_C2_supplier_group_expansion_witness :
    transform_supplier_group sgInput =
      .ok ⟨["client_id", "group_name", "supplier_id"],
        [[.str "C1", .str "g1", .str "101"],
         [.str "C1", .str "g1", .str "102"],
         [.str "C1", .str "g2", .str "103"]]⟩ :=
  claim_C2_supplier_group_expansion sgInput rfl (List.cons_ne_nil _ _)

/-- C2 counterexample: a document with an ABSENT `supplier_groups` field does
not contribute zero rows as claimed — its cell becomes `NaN`, which is
truthy, so the loop calls `.items()` on a float and the transform fails with
`AttributeError`; and when every document has an empty mapping, the rebuilt
frame has no columns and the `client_id` post-processing fails with
`KeyError`. -/
theorem claim_C2_absent_supplier_groups_counterexample :
    transform_supplier_group
      [[("client_id", .dict [("$oid", .str "C1")]),
        ("supplier_groups", .dict [("g1", .list [.dict [("$oid", .str "101")]])])],
       [("client_id", .dict [("$oid", .str "C2")])]] =
      .error (.attributeError "value has no attribute items")
    ∧ transform_supplier_group
        [[("client_id", .dict [("$oid", .str "C1")]), ("supplier_groups", .dict [])]] =
      .error (.keyError "client_id") :=
  ⟨rfl, rfl⟩

/-- C3 (amended): for every record set and column order, column selection
emits for each record exactly the columns in the given order; and when some
ordered column is absent from the TABLE — absent from every record — it
fails with one error naming all such missing columns in one batch. (The
amendment weakens "absent from at least one record" to "absent from every
record": a column present in some record is selected, with null cells for
the records lacking it, see the counterexample.) -/
theorem claim_C3_select_columns (df : DataFrame) (sel : List String) :
    ((∀ c ∈ sel, c ∈ df.cols) →
      dfSelect df sel =
        .ok ⟨sel, df.rows.map (fun row => sel.map (fun c => rowCell df.cols row c))⟩)
    ∧ ((∃ c ∈ sel, c ∉ df.cols) →
      dfSelect df sel = .error (.colsNotFound (sel.filter (fun c => c ∉ df.cols)))) := by
  constructor
  · intro h
    unfold dfSelect
    have hf : sel.filter (fun c => decide (c ∉ df.cols)) = [] := by
      rw [List.filter_eq_nil_iff]
      intro c hc
      simp [h c hc]
    simp only [hf, List.isEmpty_nil, if_true]
  · rintro ⟨c, hc, hnc⟩
    unfold dfSelect
    have hmem : c ∈ sel.filter (fun c => decide (c ∉ df.cols)) := by
      rw [List.mem_filter]
      exact ⟨hc, by simpa using hnc⟩
    have hf : (sel.filter (fun c => decide (c ∉ df.cols))).isEmpty = false := by
      cases hfe : sel.filter (fun c => decide (c ∉ df.cols)) with
      | nil => rw [hfe] at hmem; cases hmem
      | cons a b => rfl
    simp only [hf, Bool.false_eq_true, if_false]

/-- C3 witness: selecting `supplier_id` from a table that is missing it
raises the error naming `supplier_id` — not a generic lookup failure. -/
theorem claim_C3_select_columns_witness :
    dfSelect (dataFrameOfDocs [[("a", .num 1)]]) ["supplier_id"] =
      .error (.colsNotFound ["supplier_id"]) :=
  (claim_C3_select_columns (dataFrameOfDocs [[("a", .num 1)]]) ["supplier_id"]).2
    ⟨"supplier_id", by decide, by decide⟩

/-- C3 counterexample: `supplier_id` is absent from the second record (its
lookup is `none`), yet selection SUCCEEDS — the missing cell becomes `NaN` —
refuting the claim that absence from at least one record fails the
selection. -/
theorem claim_C3_partial_absence_counterexample :
    dfSelect (dataFrameOfDocs [[("supplier_id", .str "X")], [("a", .num 1)]])
        ["supplier_id", "a"] =
      .ok ⟨["supplier_id", "a"], [[.str "X", .vnan], [.vnan, .num 1]]⟩
    ∧ (([("a", Value.num 1)] : Document).lookup "supplier_id" = none) :=
  ⟨rfl, rfl⟩

/-- C4: `checkIdColumn` fails whenever the column holds a null or empty
value; it rejects any value whose string length is `n + 1` or `n - 1`; and
it accepts the column exactly when every value is non-null, non-empty and of
string length exactly `n` — a fixed-width invariant, not a maximum. -/
theorem claim_C4_id_fixed_width (df : DataFrame) (c : String) (n : Nat)
    (hc : c ∈ df.cols) (hn : 1 ≤ n) :
    (validate_id_column df c n = .ok df ↔
      ∀ v ∈ getCol df c, v.isNull = false ∧ v.isEmptyStr = false ∧ pyStrLen v = n)
    ∧ ((getCol df c).any (fun v => v.isNull || v.isEmptyStr) = true →
        validate_id_column df c n =
          .error (.valueError ("Null or empty values found in ID column " ++ c ++ ".")))
    ∧ (∀ v ∈ getCol df c, (pyStrLen v = n + 1 ∨ pyStrLen v = n - 1) →
        validate_id_column df c n ≠ .ok df) := by
  have hiff : validate_id_column df c n = .ok df ↔
      ∀ v ∈ getCol df c, v.isNull = false ∧ v.isEmptyStr = false ∧ pyStrLen v = n := by
    unfold validate_id_column
    rw [if_neg (not_not_intro hc)]
    by_cases h1 : (getCol df c).any (fun v => v.isNull || v.isEmptyStr) = true
    · rw [if_pos h1]
      constructor
      · intro hok; exact absurd hok (error_ne_ok _ _)
      · intro hall
        exfalso
        rw [List.any_eq_true] at h1
        obtain ⟨v, hv, hbad⟩ := h1
        obtain ⟨ha, hb, -⟩ := hall v hv
        rw [ha, hb] at hbad
        exact absurd hbad (by decide)
    · rw [if_neg h1]
      by_cases h2 : (getCol df c).any (fun v => n < pyStrLen v) = true
      · rw [if_pos h2]
        constructor
        · intro hok; exact absurd hok (error_ne_ok _ _)
        · intro hall
          exfalso
          rw [List.any_eq_true] at h2
          obtain ⟨v, hv, hbad⟩ := h2
          obtain ⟨-, -, hl⟩ := hall v hv
          simp only [decide_eq_true_eq] at hbad
          omega
      · rw [if_neg h2]
        by_cases h3 : (getCol df c).any (fun v => pyStrLen v < n) = true
        · rw [if_pos h3]
          constructor
          · intro hok; exact absurd hok (error_ne_ok _ _)
          · intro hall
            exfalso
            rw [List.any_eq_true] at h3
            obtain ⟨v, hv, hbad⟩ := h3
            obtain ⟨-, -, hl⟩ := hall v hv
            simp only [decide_eq_true_eq] at hbad
            omega
        · rw [if_neg h3]
          constructor
          · intro _
            intro v hv
            have k1 : ¬ ((v.isNull || v.isEmptyStr) = true) :=
              fun hb => h1 (List.any_eq_true.mpr ⟨v, hv, hb⟩)
            have k2 : ¬ (n < pyStrLen v) :=
              fun hb => h2 (List.any_eq_true.mpr ⟨v, hv, by simpa using hb⟩)
            have k3 : ¬ (pyStrLen v < n) :=
              fun hb => h3 (List.any_eq_true.mpr ⟨v, hv, by simpa using hb⟩)
            refine ⟨?_, ?_, by omega⟩
            · cases hq : v.isNull
              · rfl
              · exact absurd (by rw [hq]; rfl) k1
            · cases hq : v.isEmptyStr
              · rfl
              · exact absurd (by rw [hq]; simp) k1
          · intro _; rfl
  refine ⟨hiff, ?_, ?_⟩
  · intro h1
    unfold validate_id_column
    rw [if_neg (not_not_intro hc), if_pos h1]
  · intro v hv hlen hok
    obtain ⟨-, -, hl⟩ := hiff.mp hok v hv
    omega

/-- C4 witness: a two-row column of width-3 ids passes the check with
`n = 3`. -/
theorem claim_C4_id_fixed_width_witness :
    validate_id_column ⟨["id"], [[.str "abc"], [.str "xyz"]]⟩ "id" 3 =
      .ok ⟨["id"], [[.str "abc"], [.str "xyz"]]⟩ :=
  (claim_C4_id_fixed_width ⟨["id"], [[.str "abc"], [.str "xyz"]]⟩ "id" 3
      (by decide) (by decide)).1.mpr
    (by
      have hcol : getCol ⟨["id"], [[Value.str "abc"], [Value.str "xyz"]]⟩ "id" =
          [Value.str "abc", Value.str "xyz"] := rfl
      rw [hcol]
      intro v hv
      rcases List.mem_cons.mp hv with rfl | hv
      · exact ⟨rfl, rfl, rfl⟩
      · rcases List.mem_cons.mp hv with rfl | hv
        · exact ⟨rfl, rfl, rfl⟩
        · cases hv)

/-- C5 (amended): `flattenSingleKeyLists` replaces each named field whose
value is a non-empty sequence of single-key mappings all sharing the same
key with the ordered sequence of values under that key; a value that is not
a list, whose members are not all mappings, or whose key union has size
other than one passes through unchanged; and it fails with `KeyError`
whenever a requested field name is absent from the record set. (The
amendment removes empty-dict members from the pass-through clause: a list of
mappings whose key union is a single key raises `KeyError` when some member
lacks that key, instead of passing through — see the counterexample.) -/
theorem claim_C5_flatten_single_key_lists :
    (∀ (k : String) (vs : List Value), vs ≠ [] →
        extract_values (.list (vs.map (fun v => .dict [(k, v)]))) = .ok (.list vs))
    ∧ (∀ xs : List Value, xs.all Value.isDict = false →
        extract_values (.list xs) = .ok (.list xs))
    ∧ (∀ xs : List Value, (unionKeys xs).length ≠ 1 →
        extract_values (.list xs) = .ok (.list xs))
    ∧ (∀ v : Value, v.isList = false → extract_values v = .ok v)
    ∧ (∀ (df : DataFrame) (name : String), name ∉ df.cols →
        process_dict_columns df [name] =
          .error (.keyError ("Column " ++ name ++ " not found in DataFrame."))) := by
  refine ⟨?_, ?_, ?_, ?_, ?_⟩
  · intro k vs hne
    cases vs with
    | nil => exact absurd rfl hne
    | cons v0 rest =>
        simp only [extract_values]
        have hall : ((v0 :: rest).map (fun v => Value.dict [(k, v)])).all
            Value.isDict = true := by
          rw [List.all_eq_true]
          intro x hx
          rw [List.mem_map] at hx
          obtain ⟨v, hv, rfl⟩ := hx
          rfl
        rw [if_pos hall, unionKeys_singleton k v0 rest]
        have hmapM : ((v0 :: rest).map (fun v => Value.dict [(k, v)])).mapM
            (fun item => dictGetKey item k) = .ok (v0 :: rest) := by
          have h := mapM_ok_of_forall (fun item => dictGetKey item k)
              (fun item => match item with
                | Value.dict ((_, v) :: _) => v
                | _ => Value.vnan)
              ((v0 :: rest).map (fun v => Value.dict [(k, v)]))
              (by
                intro x hx
                rw [List.mem_map] at hx
                obtain ⟨v, hv, rfl⟩ := hx
                simp [dictGetKey, List.lookup])
          rw [h, List.map_map]
          congr 1
          have hid : ∀ l : List Value, l.map ((fun item =>
              match item with
              | Value.dict ((_, v) :: _) => v
              | _ => Value.vnan) ∘ fun v => Value.dict [(k, v)]) = l := by
            intro l
            induction l with
            | nil => rfl
            | cons a l ih => rw [List.map_cons, ih]; exact rfl
          exact hid (v0 :: rest)
        show (do
            let vals ← ((v0 :: rest).map (fun v => Value.dict [(k, v)])).mapM
              (fun item => dictGetKey item k)
            Except.ok (Value.list vals)) = Except.ok (Value.list (v0 :: rest))
        rw [hmapM]
        rfl
  · intro xs h
    simp only [extract_values]
    rw [if_neg (by rw [h]; exact Bool.false_ne_true)]
  · intro xs h
    simp only [extract_values]
    by_cases hd : xs.all Value.isDict = true
    · rw [if_pos hd]
      generalize hu : unionKeys xs = u at h ⊢
      cases u with
      | nil => rfl
      | cons k r =>
          cases r with
          | nil => exact absurd rfl h
          | cons k2 r2 => rfl
    · rw [if_neg hd]
  · intro v hv
    cases v <;> first | rfl | simp [Value.isList] at hv
  · intro df name h
    simp only [process_dict_columns, List.foldlM_cons, List.foldlM_nil]
    rw [if_neg h]
    rfl

/-- C5 witness: a list of two `$oid` wrappers flattens to the ordered list
of the wrapped ids. -/
theorem claim_C5_flatten_single_key_lists_witness :
    extract_values (.list [.dict [("$oid", .str "101")], .dict [("$oid", .str "102")]]) =
      .ok (.list [.str "101", .str "102"]) :=
  claim_C5_flatten_single_key_lists.1 "$oid" [.str "101", .str "102"]
    (List.cons_ne_nil _ _)

/-- C5 counterexample: the field value `[{"$oid": "x"}, {}]` is NOT a
sequence of mappings all sharing one key (the second mapping is empty), so
by the claim it should pass through unchanged, but the key union is the
single key `$oid` and the code indexes the empty mapping with it — the
processing fails with `KeyError` instead of passing the value through. -/
theorem claim_C5_missing_key_counterexample :
    process_dict_columns
        (dataFrameOfDocs [[("f", .list [.dict [("$oid", .str "x")], .dict []])]]) ["f"] =
      .error (.keyError "$oid") := rfl

/-- C6: `checkDate` accepts a column exactly when every value parses as a
calendar date or timestamp under the modelled pandas parser, fails with the
error naming the column otherwise, accepts "2023-01-01" and
"2023-01-01T12:00:00Z", rejects "not-a-date" and the empty string, and
treats null values as invalid — there is no null-date exemption. -/
theorem claim_C6_date_validation (df : DataFrame) (c : String) (hc : c ∈ df.cols) :
    (validate_date_column df c = .ok df ↔ ∀ v ∈ getCol df c, pdToDatetimeOk v = true)
    ∧ ((getCol df c).any (fun v => !pdToDatetimeOk v) = true →
        validate_date_column df c =
          .error (.valueError ("Invalid dates found in column " ++ c ++ ".")))
    ∧ pdToDatetimeOk (.str "2023-01-01") = true
    ∧ pdToDatetimeOk (.str "2023-01-01T12:00:00Z") = true
    ∧ pdToDatetimeOk (.str "not-a-date") = false
    ∧ pdToDatetimeOk (.str "") = false
    ∧ (∀ v : Value, v.isNull = true → pdToDatetimeOk v = false) := by
  refine ⟨?_, ?_, rfl, rfl, rfl, rfl, ?_⟩
  · unfold validate_date_column
    rw [if_neg (not_not_intro hc)]
    by_cases h : (getCol df c).any (fun v => !pdToDatetimeOk v) = true
    · rw [if_pos h]
      constructor
      · intro hok; exact absurd hok (error_ne_ok _ _)
      · intro hall
        exfalso
        rw [List.any_eq_true] at h
        obtain ⟨v, hv, hbad⟩ := h
        rw [hall v hv] at hbad
        exact absurd hbad (by decide)
    · rw [if_neg h]
      constructor
      · intro _
        intro v hv
        cases hq : pdToDatetimeOk v
        · exact absurd (List.any_eq_true.mpr ⟨v, hv, by rw [hq]; rfl⟩) h
        · rfl
      · intro _; rfl
  · intro h
    unfold validate_date_column
    rw [if_neg (not_not_intro hc), if_pos h]
  · intro v hv
    cases v <;> simp_all [Value.isNull, pdToDatetimeOk]

/-- C6 witness: a column holding the two well-formed example timestamps
passes the date check. -/
theorem claim_C6_date_validation_witness :
    validate_date_column ⟨["d"], [[.str "2023-01-01"], [.str "2023-01-01T12:00:00Z"]]⟩ "d" =
      .ok ⟨["d"], [[.str "2023-01-01"], [.str "2023-01-01T12:00:00Z"]]⟩ :=
  (claim_C6_date_validation
      ⟨["d"], [[.str "2023-01-01"], [.str "2023-01-01T12:00:00Z"]]⟩ "d" (by decide)).1.mpr
    (by
      have hcol : getCol ⟨["d"], [[Value.str "2023-01-01"],
          [Value.str "2023-01-01T12:00:00Z"]]⟩ "d" =
          [Value.str "2023-01-01", Value.str "2023-01-01T12:00:00Z"] := rfl
      rw [hcol]
      intro v hv
      rcases List.mem_cons.mp hv with rfl | hv
      · rfl
      · rcases List.mem_cons.mp hv with rfl | hv
        · rfl
        · cases hv)

/-- C7 (amended): `flattenOidWrapper` returns the value stored under the
`$oid` key whenever its argument is a mapping that CONTAINS `$oid` —
regardless of how many other keys the mapping carries — and returns `None`
for every non-mapping value and for mappings without that key. (The
amendment drops the single-key requirement: the code tests membership of
`$oid`, not that the mapping has exactly one key — see the
counterexample.) -/
theorem claim_C7_oid_wrapper :
    (∀ d : List (String × Value),
        oidLambda (.dict d) = (d.lookup "$oid").getD .vnone)
    ∧ (∀ v : Value, v.isDict = false → oidLambda v = .vnone) := by
  constructor
  · intro d
    cases h : d.lookup "$oid" <;> simp [oidLambda, h]
  · intro v hv
    cases v <;> first | rfl | simp [Value.isDict] at hv

/-- C7 witness: a non-mapping value yields `None`. -/
theorem claim_C7_oid_wrapper_witness : oidLambda (.str "q") = .vnone :=
  claim_C7_oid_wrapper.2 (.str "q") rfl

/-- C7 counterexample: a mapping that carries `$oid` ALONGSIDE another key is
unwrapped to the `$oid` value — not sent to `None` as the claim demands for
every value other than single-key `$oid` mappings. -/
theorem claim_C7_extra_keys_counterexample :
    oidLambda (.dict [("$oid", .str "a"), ("other", .str "b")]) = .str "a"
    ∧ Value.str "a" ≠ Value.vnone :=
  ⟨rfl, fun h => Value.noConfusion h⟩

/-- C8: `transform` dispatches each of the five known collection names to
that collection's pipeline, and fails with the unknown-case error for every
other name. -/
theorem claim_C8_dispatch :
    (∀ data, transform data "clients" = transform_clients data)
    ∧ (∀ data, transform data "supplier_group" = transform_supplier_group data)
    ∧ (∀ data, transform data "suppliers" = transform_suppliers data)
    ∧ (∀ data, transform data "sonar_runs" = transform_sonar_runs data)
    ∧ (∀ data, transform data "sonar_results" = transform_sonar_results data)
    ∧ (∀ (data : List Document) (case : String),
        case ∉ ["clients", "supplier_group", "suppliers", "sonar_runs", "sonar_results"] →
        transform data case =
          .error (.valueError ("Unknown transformation case: " ++ case))) := by
  refine ⟨fun _ => rfl, fun _ => rfl, fun _ => rfl, fun _ => rfl, fun _ => rfl, ?_⟩
  intro data c h
  simp only [List.mem_cons, not_or] at h
  obtain ⟨h1, h2, h3, h4, h5, -⟩ := h
  simp only [transform, beq_iff_eq]
  rw [if_neg h1, if_neg h2, if_neg h3, if_neg h4, if_neg h5]

/-- C8 witness: the name "unknown" is not a known collection and the
dispatcher rejects it with the unknown-case error. -/
theorem claim_C8_dispatch_witness :
    ("unknown" ∉ ["clients", "supplier_group", "suppliers", "sonar_runs", "sonar_results"])
    ∧ transform [] "unknown" = .error (.valueError "Unknown transformation case: unknown") :=
  ⟨by decide, claim_C8_dispatch.2.2.2.2.2 [] "unknown" (by decide)⟩

/-- C9: the flattening is idempotent — once a field holds a flattened list
of scalars, applying `extract_values` again returns the very same value,
because a list of scalars no longer matches the list-of-dicts shape. -/
theorem claim_C9_flatten_idempotent (v : Value) (xs : List Value)
    (h1 : extract_values v = .ok (.list xs))
    (h2 : ∀ x ∈ xs, x.isScalar = true) :
    extract_values (.list xs) = .ok (.list xs) := by
  cases xs with
  | nil => rfl
  | cons x rest =>
      have hx := h2 x (by simp)
      have hd : x.isDict = false := by
        cases x <;> simp_all [Value.isDict, Value.isScalar]
      simp only [extract_values]
      simp [List.all_cons, hd]

/-- C9 witness: flattening `[{"$oid": "101"}]` yields `["101"]`, and
flattening that result again returns it unchanged. -/
theorem claim_C9_flatten_idempotent_witness :
    extract_values (.list [.str "101"]) = .ok (.list [.str "101"]) :=
  claim_C9_flatten_idempotent (.list [.dict [("$oid", .str "101")]]) [.str "101"] rfl
    (by
      intro x hx
      rcases List.mem_cons.mp hx with rfl | hx
      · rfl
      · cases hx)

/-- C10: the float type check is not read-only — when it succeeds it hands
back the caller's table with the column's nulls overwritten by `0`, while
the boolean, varchar, date and id-length checks return the table unchanged;
in particular a table with a null in its float column leaves validation
different from how it entered. -/
theorem claim_C10_frame_effects :
    (∀ (df : DataFrame) (c : String) (df' : DataFrame),
        validate_column_types df c "float" = .ok df' → df' = fillna0 df c)
    ∧ (∀ (df : DataFrame) (c : String) (df' : DataFrame),
        validate_column_types df c "boolean" = .ok df' → df' = df)
    ∧ (∀ (df : DataFrame) (c : String) (df' : DataFrame),
        validate_column_types df c "varchar" = .ok df' → df' = df)
    ∧ (∀ (df : DataFrame) (c : String) (df' : DataFrame),
        validate_date_column df c = .ok df' → df' = df)
    ∧ (∀ (df : DataFrame) (c : String) (n : Nat) (df' : DataFrame),
        validate_id_column df c n = .ok df' → df' = df)
    ∧ validate_column_types ⟨["x"], [[.vnan], [.num 3]]⟩ "x" "float" =
        .ok ⟨["x"], [[.num 0], [.num 3]]⟩
    ∧ (⟨["x"], [[.num 0], [.num 3]]⟩ : DataFrame) ≠ ⟨["x"], [[.vnan], [.num 3]]⟩ := by
  refine ⟨?_, ?_, ?_, ?_, ?_, rfl, ?_⟩
  · intro df c df' h
    unfold validate_column_types at h
    by_cases hc : c ∉ df.cols
    · rw [if_pos hc] at h; exact absurd h (error_ne_ok _ _)
    · rw [if_neg hc] at h
      rw [if_pos (show (("float" : String) == "float") = true from rfl)] at h
      by_cases hall : (getCol (fillna0 df c) c).all pdToNumericOk = true
      · rw [if_pos hall] at h
        injection h with h1
        exact h1.symm
      · rw [if_neg hall] at h; exact absurd h (error_ne_ok _ _)
  · intro df c df' h
    unfold validate_column_types at h
    by_cases hc : c ∉ df.cols
    · rw [if_pos hc] at h; exact absurd h (error_ne_ok _ _)
    · rw [if_neg hc] at h
      rw [if_neg (show ¬ (("boolean" : String) == "float") = true by decide)] at h
      rw [if_pos (show (("boolean" : String) == "boolean") = true from rfl)] at h
      by_cases hall : (getCol df c).all isBoolish = true
      · rw [if_pos hall] at h
        injection h with h1
        exact h1.symm
      · rw [if_neg hall] at h; exact absurd h (error_ne_ok _ _)
  · intro df c df' h
    unfold validate_column_types at h
    by_cases hc : c ∉ df.cols
    · rw [if_pos hc] at h; exact absurd h (error_ne_ok _ _)
    · rw [if_neg hc] at h
      rw [if_neg (show ¬ (("varchar" : String) == "float") = true by decide)] at h
      rw [if_neg (show ¬ (("varchar" : String) == "boolean") = true by decide)] at h
      injection h with h1
      exact h1.symm
  · intro df c df' h
    unfold validate_date_column at h
    by_cases hc : c ∉ df.cols
    · rw [if_pos hc] at h; exact absurd h (error_ne_ok _ _)
    · rw [if_neg hc] at h
      by_cases hany : (getCol df c).any (fun v => !pdToDatetimeOk v) = true
      · rw [if_pos hany] at h; exact absurd h (error_ne_ok _ _)
      · rw [if_neg hany] at h
        injection h with h1
        exact h1.symm
  · intro df c n df' h
    unfold validate_id_column at h
    by_cases hc : c ∉ df.cols
    · rw [if_pos hc] at h; exact absurd h (error_ne_ok _ _)
    · rw [if_neg hc] at h
      by_cases h1 : (getCol df c).any (fun v => v.isNull || v.isEmptyStr) = true
      · rw [if_pos h1] at h; exact absurd h (error_ne_ok _ _)
      · rw [if_neg h1] at h
        by_cases h2 : (getCol df c).any (fun v => n < pyStrLen v) = true
        · rw [if_pos h2] at h; exact absurd h (error_ne_ok _ _)
        · rw [if_neg h2] at h
          by_cases h3 : (getCol df c).any (fun v => pyStrLen v < n) = true
          · rw [if_pos h3] at h; exact absurd h (error_ne_ok _ _)
          · rw [if_neg h3] at h
            injection h with h1
            exact h1.symm
  · intro h
    injection h with h1 h2
    injection h2 with h3 h4
    injection h3 with h5 h6
    exact Value.noConfusion h5

/-- C10 witness: running the float check on a table whose float column holds
a null hands back the fill-with-zero mutation of the caller's table. -/
theorem claim_C10_frame_effects_witness :
    (⟨["x"], [[.num 0], [.num 3]]⟩ : DataFrame) =
      fillna0 ⟨["x"], [[.vnan], [.num 3]]⟩ "x" :=
  claim_C10_frame_effects.1 ⟨["x"], [[.vnan], [.num 3]]⟩ "x"
    ⟨["x"], [[.num 0], [.num 3]]⟩ rfl
